import Mathlib

/-!
Shallow embedding of the question-analysis / generation pipeline of
`app/services/ai_service.py`, restricted to the template (non-transformer)
configuration, which is the default (`USE_AI_MODELS` defaults to False in
`app/core/config.py`).

Modelling conventions:
- Python strings are Lean `String` / `List Char`; the regex classes `\s` and
  `\d` and `str.lower`/`str.split` are modelled over ASCII (Python would in
  addition accept unicode whitespace/digits/case, which no claim exercises).
- Python `int` is `Nat` for regex captures (the patterns capture `\d+`, which
  is non-negative) and `Int` where subtraction occurs.
- Python `float` true division is idealized as exact division on `ℚ`; this is
  exact whenever the mathematical quotient is an integer below 2^53, which
  covers every concrete case evaluated below.  `str(float)` rendering is
  modelled by `floatStr`, faithful for integral quotients (`4.0` etc.).
- The regex patterns of `_solve_basic_equation` contain only literals,
  character classes, `\s*`, `\s+`, `\*?` and `(\d+)`; for these, Python's
  leftmost greedy backtracking search is equivalent to the deterministic
  greedy matchers below (no backtracking branch can succeed where the greedy
  one fails, because each repetition class is disjoint from the character
  that must follow it).
- The global Mersenne-Twister RNG behind `random.choice` is modelled as an
  abstract deterministic stream `RngState` (a function from draw index to a
  number), consumed one draw per call: exactly the determinism-relevant
  structure of a seeded PRNG.  No claim depends on the distribution.
- The analysis dictionary's `sentence_count` and `relevant_concepts` entries
  (the latter always `[]` on the fallback path, line 215) are not consumed by
  any generation path under verification and are omitted from `Analysis`.
-/

/-- Python `\s` character class over ASCII (space, tab, newline, carriage
return, vertical tab, form feed). -/
def pyIsSpace (c : Char) : Bool :=
  c == ' ' || c == '\t' || c == '\n' || c == '\r' || c == '\x0b' || c == '\x0c'

/-- Python `\d` character class over ASCII. -/
def pyIsDigit (c : Char) : Bool :=
  '0' ≤ c && c ≤ '9'

/-- Python `str.lower` (ASCII range). -/
def pyLower (s : String) : String :=
  ⟨s.data.map Char.toLower⟩

/-- Python substring test `pat in hay`. -/
def containsSub (hay pat : List Char) : Bool :=
  match hay with
  | [] => pat.isEmpty
  | _ :: t => pat.isPrefixOf hay || containsSub t pat

/-- Accumulator worker for Python `str.split()` (split on whitespace runs,
dropping empty fields). -/
def pySplitGo : List Char → List Char → List (List Char)
  | [], [] => []
  | [], cur => [cur.reverse]
  | c :: cs, cur =>
    if pyIsSpace c then
      match cur with
      | [] => pySplitGo cs []
      | _ => cur.reverse :: pySplitGo cs []
    else pySplitGo cs (c :: cur)

/-- Python `str.split()` with no arguments. -/
def pySplit (s : String) : List String :=
  (pySplitGo s.data []).map (fun l => ⟨l⟩)

/-- Worker for Python `str.replace`: leftmost non-overlapping replacement,
continuing after the replaced text (newly formed occurrences straddling a
replacement are not rescanned, as in CPython).  The patterns used below are
never empty, so the empty-pattern corner of CPython is out of scope. -/
def replaceAllGo (pat rep : List Char) : List Char → List Char
  | [] => []
  | c :: cs =>
    if pat.isPrefixOf (c :: cs) then
      rep ++ replaceAllGo pat rep (cs.drop (pat.length - 1))
    else
      c :: replaceAllGo pat rep cs
termination_by l => l.length
decreasing_by
  · simp only [List.length_drop, List.length_cons]
    omega
  · simp only [List.length_cons]
    omega

/-- Python `str.replace(pat, rep)`. -/
def pyReplace (s pat rep : String) : String :=
  ⟨replaceAllGo pat.data rep.data s.data⟩

/-- Regex `\s*`: greedily drop leading whitespace. -/
def skipWs : List Char → List Char
  | [] => []
  | c :: cs => if pyIsSpace c then skipWs cs else c :: cs

/-- Regex `\s+`: at least one whitespace character, then greedily the rest. -/
def spaces1 : List Char → Option (List Char)
  | [] => none
  | c :: cs => if pyIsSpace c then some (skipWs cs) else none

/-- Greedy continuation of `(\d+)`, accumulating the captured value as
Python `int(...)` of the captured digits does. -/
def digitsAux : Nat → List Char → Nat × List Char
  | acc, [] => (acc, [])
  | acc, c :: cs =>
    if pyIsDigit c then digitsAux (acc * 10 + (c.toNat - 48)) cs else (acc, c :: cs)

/-- Regex capture `(\d+)` followed by `int` conversion: at least one digit. -/
def takeDigits : List Char → Option (Nat × List Char)
  | [] => none
  | c :: cs => if pyIsDigit c then some (digitsAux 0 (c :: cs)) else none

/-- One mandatory literal character. -/
def expectChar (c : Char) : List Char → Option (List Char)
  | [] => none
  | d :: cs => if d == c then some cs else none

/-- Case-insensitive literal match (regex literal under `re.IGNORECASE`,
ASCII case folding). -/
def matchCI : List Char → List Char → Option (List Char)
  | [], rest => some rest
  | _ :: _, [] => none
  | p :: ps, c :: cs => if c.toLower == p.toLower then matchCI ps cs else none

/-- Anchored match of `x\s*\+\s*(\d+)\s*=\s*(\d+)` (source line 607). -/
def matchAddAt : List Char → Option (Nat × Nat)
  | 'x' :: rest =>
    match skipWs rest with
    | '+' :: r2 =>
      match takeDigits (skipWs r2) with
      | some (a, r3) =>
        match skipWs r3 with
        | '=' :: r4 =>
          match takeDigits (skipWs r4) with
          | some (b, _) => some (a, b)
          | none => none
        | _ => none
      | none => none
    | _ => none
  | _ => none

/-- Anchored match of `x\s*-\s*(\d+)\s*=\s*(\d+)` (source line 626). -/
def matchSubAt : List Char → Option (Nat × Nat)
  | 'x' :: rest =>
    match skipWs rest with
    | '-' :: r2 =>
      match takeDigits (skipWs r2) with
      | some (a, r3) =>
        match skipWs r3 with
        | '=' :: r4 =>
          match takeDigits (skipWs r4) with
          | some (b, _) => some (a, b)
          | none => none
        | _ => none
      | none => none
    | _ => none
  | _ => none

/-- Anchored match of `(\d+)\s*\*?\s*x\s*=\s*(\d+)` (source line 645). -/
def matchMulAt (l : List Char) : Option (Nat × Nat) :=
  match takeDigits l with
  | some (a, r1) =>
    let r2 := skipWs r1
    let r3 := match r2 with
      | '*' :: t => t
      | _ => r2
    match skipWs r3 with
    | 'x' :: r4 =>
      match skipWs r4 with
      | '=' :: r5 =>
        match takeDigits (skipWs r5) with
        | some (b, _) => some (a, b)
        | none => none
      | _ => none
    | _ => none
  | none => none

/-- Anchored match of
`[Ss]olve\s+for\s+x\s*:\s*x\s*\+\s*(\d+)\s*=\s*(\d+)` under `re.IGNORECASE`
(source line 581). -/
def matchSolveAt (l : List Char) : Option (Nat × Nat) := do
  let r1 ← matchCI (("solve").data) l
  let r2 ← spaces1 r1
  let r3 ← matchCI (("for").data) r2
  let r4 ← spaces1 r3
  let r5 ← matchCI (("x").data) r4
  let r6 ← expectChar ':' (skipWs r5)
  let r7 ← matchCI (("x").data) (skipWs r6)
  let r8 ← expectChar '+' (skipWs r7)
  let (a, r9) ← takeDigits (skipWs r8)
  let r10 ← expectChar '=' (skipWs r9)
  let (b, _) ← takeDigits (skipWs r10)
  pure (a, b)

/-- Python `re.search`: try the anchored matcher at every position, left to
right, and return the leftmost match. -/
def searchWith (m : List Char → Option (Nat × Nat)) : List Char → Option (Nat × Nat)
  | [] => m []
  | c :: cs =>
    match m (c :: cs) with
    | some r => some r
    | none => searchWith m cs

/-- Search for the solve-for-x pattern. -/
def searchSolve (l : List Char) : Option (Nat × Nat) := searchWith matchSolveAt l

/-- Search for the additive pattern. -/
def searchAdd (l : List Char) : Option (Nat × Nat) := searchWith matchAddAt l

/-- Search for the subtractive pattern. -/
def searchSub (l : List Char) : Option (Nat × Nat) := searchWith matchSubAt l

/-- Search for the multiplicative pattern. -/
def searchMul (l : List Char) : Option (Nat × Nat) := searchWith matchMulAt l

/-- Result dictionary `{"content": ..., "steps": ...}` of the generation and
solver functions; `steps` is `None` or a string. -/
structure SolutionResult where
  content : String
  steps : Option String
deriving DecidableEq

/-- Python `"\n".join(f"Step {i+1}: {step}" for i, step in enumerate(steps))`. -/
def numberSteps (steps : List String) : String :=
  String.intercalate ("\n") (steps.enum.map (fun p => "Step " ++ toString (p.1 + 1) ++ ": " ++ p.2))

/-- Python `str(float)` rendering, modelled on `ℚ`: faithful for integral
values (`4.0`); non-integral quotients are rendered as exact fractions, a
divergence from CPython float repr that no theorem below evaluates. -/
def floatStr (q : ℚ) : String :=
  if q.den = 1 then toString q.num ++ ".0"
  else toString q.num ++ "/" ++ toString q.den

/-- Solution built by the solve-for-x branch (source lines 584-604). -/
def solveForSolution (c r : Nat) : SolutionResult :=
  let x : Int := (r : Int) - (c : Int)
  { content := "The solution to the equation x + " ++ toString c ++ " = " ++ toString r
      ++ " is x = " ++ toString x ++ "."
    steps := some (numberSteps [
      "Start with the original equation: x + " ++ toString c ++ " = " ++ toString r,
      "To isolate x, subtract " ++ toString c ++ " from both sides of the equation",
      "x + " ++ toString c ++ " - " ++ toString c ++ " = " ++ toString r ++ " - " ++ toString c,
      "x = " ++ toString r ++ " - " ++ toString c ++ " = " ++ toString x,
      "Therefore, x = " ++ toString x]) }

/-- Solution built by the additive branch (source lines 609-623). -/
def addSolution (c r : Nat) : SolutionResult :=
  let x : Int := (r : Int) - (c : Int)
  { content := "The solution is x = " ++ toString x ++ "."
    steps := some (numberSteps [
      "Start with the equation: x + " ++ toString c ++ " = " ++ toString r,
      "Subtract " ++ toString c ++ " from both sides: x = " ++ toString r ++ " - " ++ toString c,
      "Solve for x: x = " ++ toString x]) }

/-- Solution built by the subtractive branch (source lines 627-642). -/
def subSolution (c r : Nat) : SolutionResult :=
  let x : Nat := r + c
  { content := "The solution is x = " ++ toString x ++ "."
    steps := some (numberSteps [
      "Start with the equation: x - " ++ toString c ++ " = " ++ toString r,
      "Add " ++ toString c ++ " to both sides: x = " ++ toString r ++ " + " ++ toString c,
      "Solve for x: x = " ++ toString x]) }

/-- Solution built by the multiplicative branch (source lines 646-661).
When the captured coefficient is 0, `result / constant` raises
`ZeroDivisionError`, which the enclosing `except` (line 665) turns into
`None`; otherwise the float quotient is computed. -/
def mulSolution (c r : Nat) : Option SolutionResult :=
  if c = 0 then none
  else
    let x : ℚ := (r : ℚ) / (c : ℚ)
    some
      { content := "The solution is x = " ++ floatStr x ++ "."
        steps := some (numberSteps [
          "Start with the equation: " ++ toString c ++ "x = " ++ toString r,
          "Divide both sides by " ++ toString c ++ ": x = " ++ toString r ++ " / " ++ toString c,
          "Solve for x: x = " ++ floatStr x]) }

/-- `_solve_basic_equation` (source lines 574-667): the four patterns are
tried in source order — solve-for-x phrasing first, then additive, then
subtractive, then multiplicative — and the first pattern whose `re.search`
succeeds determines the result.  No match yields `None`. -/
def solveBasicEquation (s : String) : Option SolutionResult :=
  match searchSolve s.data with
  | some (a, b) => some (solveForSolution a b)
  | none =>
    match searchAdd s.data with
    | some (a, b) => some (addSolution a b)
    | none =>
      match searchSub s.data with
      | some (a, b) => some (subSolution a b)
      | none =>
        match searchMul s.data with
        | some (a, b) => mulSolution a b
        | none => none

/-- Modelled from the spec: the pattern order the specification describes
("`x + a = b`, `x - a = b`, `a*x = b` (also bare `ax = b`), and a
\"solve for x\" phrasing of the additive form"), with the same branch bodies
as the implementation.  Defined only to compare the claimed order against
the implemented order. -/
def specOrderSolve (s : String) : Option SolutionResult :=
  match searchAdd s.data with
  | some (a, b) => some (addSolution a b)
  | none =>
    match searchSub s.data with
    | some (a, b) => some (subSolution a b)
    | none =>
      match searchMul s.data with
      | some (a, b) => mulSolution a b
      | none =>
        match searchSolve s.data with
        | some (a, b) => some (solveForSolution a b)
        | none => none

/-- Whether some pattern match actually produces a solution: any match of
the first three patterns, or a multiplicative match with nonzero
coefficient. -/
def effectiveMatch (s : String) : Bool :=
  (searchSolve s.data).isSome || (searchAdd s.data).isSome || (searchSub s.data).isSome ||
    (match searchMul s.data with
     | some p => p.1 != 0
     | none => false)

/-- Question type enum (`app/models/question.py`). -/
inductive QuestionType where
  | math
  | physics
  | chemistry
  | biology
  | computer_science
  | general_knowledge
  | other
deriving DecidableEq

/-- Math keyword list of the fallback classifier (source line 191). -/
def mathKeywords : List String :=
  ["solve", "equation", "calculate", "value", "find x", "find the value", "=", "equals"]

/-- Physics keyword list (source line 193). -/
def physicsKeywords : List String :=
  ["force", "energy", "motion", "velocity"]

/-- Chemistry keyword list (source line 195). -/
def chemistryKeywords : List String :=
  ["element", "compound", "molecule", "reaction"]

/-- Biology keyword list (source line 197). -/
def biologyKeywords : List String :=
  ["cell", "organism", "species", "gene"]

/-- Computer-science keyword list (source line 199). -/
def csKeywords : List String :=
  ["algorithm", "code", "program", "function"]

/-- Python `any(kw in question_lower for kw in kws)`. -/
def anyKeyword (kws : List String) (lower : String) : Bool :=
  kws.any (fun kw => containsSub lower.data kw.data)

/-- The if/elif keyword cascade of `_analyze_question_with_templates`
(source lines 189-200), applied to the lowercased question. -/
def classifyFallback (lower : String) : QuestionType :=
  if anyKeyword mathKeywords lower then QuestionType.math
  else if anyKeyword physicsKeywords lower then QuestionType.physics
  else if anyKeyword chemistryKeywords lower then QuestionType.chemistry
  else if anyKeyword biologyKeywords lower then QuestionType.biology
  else if anyKeyword csKeywords lower then QuestionType.computer_science
  else QuestionType.other

/-- Stopword set of `_extract_keywords` (source line 272). -/
def simpleStopwords : List String :=
  ["the", "a", "an", "and", "or", "but", "in", "on", "at", "to", "for", "with", "by", "about"]

/-- `_extract_keywords` (source lines 268-274): lowercase and split the text,
keep non-stopwords longer than 3 characters, return the first 10. -/
def extractKeywords (text : String) : List String :=
  ((pySplit (pyLower text)).filter
    (fun w => !simpleStopwords.contains w && decide (3 < w.length))).take 10

/-- Analysis dictionary produced by `_analyze_question_with_templates`
(source lines 209-217); `sentence_count` and the always-empty
`relevant_concepts` are omitted (not consumed by any verified path). -/
structure Analysis where
  type : QuestionType
  difficulty : ℚ
  wordCount : Nat
  keywords : List String
  originalContent : String
deriving DecidableEq

/-- `_analyze_question_with_templates` (source lines 183-217).  The
difficulty is `min(len(words) / 20, 3)` where `words` is the whitespace
split of the lowercased question. -/
def analyzeQuestionWithTemplates (content : String) : Analysis :=
  let lower := pyLower content
  let words := pySplit lower
  { type := classifyFallback lower
    difficulty := min ((words.length : ℚ) / 20) 3
    wordCount := words.length
    keywords := extractKeywords content
    originalContent := content }

/-- A question made of `n` copies of the word "aaaa" separated by single
spaces, used to exercise the difficulty heuristic at chosen word counts. -/
def repWords (n : Nat) : String :=
  String.intercalate (" ") (List.replicate n ("aaaa"))

/-- The process-global Mersenne-Twister state behind `random.choice`,
abstracted as the deterministic draw stream fixed by the seed (`seq`)
together with the number of draws consumed so far (`idx`). -/
structure RngState where
  seq : Nat → Nat
  idx : Nat

/-- `random.choice(xs)`: consume one draw to pick an element.  The fixed
template tables passed below are never empty, so the empty-sequence error of
CPython is unreachable; the model totalizes it with `""`. -/
def randChoice (xs : List String) (g : RngState) : String × RngState :=
  (xs.getD (g.seq g.idx % xs.length) (""), ⟨g.seq, g.idx + 1⟩)

/-- Hint dictionary `{"content": ..., "level": ...}`. -/
structure Hint where
  content : String
  level : Nat
deriving DecidableEq

/-- The placeholder string `f"{{keyword{j}}}"`. -/
def placeholder (j : Nat) : String :=
  "\x7bkeyword" ++ toString j ++ "\x7d"

/-- The keyword-substitution loop shared by hint and solution generation
(source lines 380-383 and 550-553): for the first three keywords in order,
if `{keyword(j+1)}` occurs in the text, replace every occurrence. -/
def substituteKeywords (text : String) (keywords : List String) : String :=
  (keywords.take 3).enum.foldl
    (fun t p =>
      if containsSub t.data (placeholder (p.1 + 1)).data then
        pyReplace t (placeholder (p.1 + 1)) p.2
      else t)
    text

/-- The loop body of `substituteKeywords`, given a name so the theorems
below can reason about the iterations one at a time;
`substituteKeywords text kws` is definitionally
`((kws.take 3).enum).foldl substStep text`. -/
def substStep (t : String) (p : Nat × String) : String :=
  if containsSub t.data (placeholder (p.1 + 1)).data then
    pyReplace t (placeholder (p.1 + 1)) p.2
  else t

/-- `_get_hint_templates` (source lines 392-452): three per-level template
lists for math, physics, and a generic fallback for every other type. -/
def getHintTemplates (qt : QuestionType) : List (List String) :=
  match qt with
  | QuestionType.math =>
    [["Think about isolating the variable by moving all other terms to the opposite side of the equation.",
      "Remember that you can add or subtract the same value from both sides of an equation.",
      "Start by identifying what operation you need to perform to isolate the variable."],
     ["To solve for the variable, you need to perform the inverse operation of what\x27s being applied to it.",
      "If you have x + a = b, you can subtract a from both sides to isolate x.",
      "If you have ax = b, you can divide both sides by a to isolate x."],
     ["Rearrange the equation step by step, keeping track of what you do to maintain the equality.",
      "After isolating the variable on one side, simplify the expression on the other side to get your answer.",
      "Check your answer by substituting it back into the original equation to verify it\x27s correct."]]
  | QuestionType.physics =>
    [["Think about the relevant physical laws.",
      "Consider the units of each quantity.",
      "Identify the forces acting on the object."],
     ["Use the equation for \x7bkeyword1\x7d in this problem.",
      "Convert units appropriately before calculation.",
      "Draw a free-body diagram to visualize the problem."],
     ["Apply the conservation of \x7bkeyword1\x7d principle.",
      "Consider both initial and final states of the system.",
      "This problem requires integrating the \x7bkeyword1\x7d over time."]]
  | _ =>
    [["Start by identifying the key concepts.",
      "Consider what the question is asking for.",
      "Look for clues in the wording of the question."],
     ["Break down the problem into smaller parts.",
      "Focus on the relationship between \x7bkeyword1\x7d and \x7bkeyword2\x7d.",
      "Try applying the concept of \x7bkeyword1\x7d to this problem."],
     ["This problem involves advanced application of \x7bkeyword1\x7d.",
      "Consider the implications of combining \x7bkeyword1\x7d with \x7bkeyword2\x7d.",
      "Apply the theoretical framework to solve this problem."]]

/-- Loop body of `_generate_hints_with_templates` (source lines 375-388):
`count` iterations remain, the current loop index is `i`; each iteration
draws a template from level list `min(i, 3) - 1`, substitutes keywords, and
emits a hint of level `i`. -/
def genHintsGo (templates : List (List String)) (keywords : List String) :
    Nat → Nat → RngState → List Hint × RngState
  | _, 0, g => ([], g)
  | i, Nat.succ n, g =>
    let pick := randChoice (templates.getD (min i templates.length - 1) []) g
    let text := substituteKeywords pick.1 keywords
    let rest := genHintsGo templates keywords (i + 1) n pick.2
    ({ content := text, level := i } :: rest.1, rest.2)

/-- `_generate_hints_with_templates` (source lines 366-390): the loop runs
`i = 1 .. min(num_hints, max_level)` (Python
`range(1, min(num_hints + 1, max_level + 1))`). -/
def generateHintsWithTemplates (analysis : Analysis) (numHints maxLevel : Nat)
    (g : RngState) : List Hint × RngState :=
  genHintsGo (getHintTemplates analysis.type) analysis.keywords 1 (min numHints maxLevel) g

/-- `_get_solution_template` (source lines 669-676). -/
def getSolutionTemplate (qt : QuestionType) : String :=
  match qt with
  | QuestionType.math =>
    "To solve this equation, we need to isolate the variable by performing inverse operations. We\x27ll move all constants to the right side and simplify to find the value of the variable."
  | QuestionType.physics =>
    "This physics problem involves \x7bkeyword1\x7d, which can be solved using the principle of \x7bkeyword2\x7d. By applying the relevant equations and solving for the unknown variable, we find the final answer."
  | _ =>
    "The solution to this problem involves understanding the concept of \x7bkeyword1\x7d and applying it correctly. By analyzing the \x7bkeyword2\x7d and considering its relationship with \x7bkeyword3\x7d, we can derive the answer."

/-- `_get_step_templates` (source lines 678-701). -/
def getStepTemplates (qt : QuestionType) : List String :=
  match qt with
  | QuestionType.math =>
    ["Start with the given equation and identify what we\x27re solving for.",
     "Rearrange the equation by performing the same operation on both sides to isolate the variable.",
     "Simplify the equation by combining like terms if necessary.",
     "Solve for the variable by performing the final calculation.",
     "Verify the solution by substituting back into the original equation."]
  | QuestionType.physics =>
    ["Identify the physical principles: This problem involves \x7bkeyword1\x7d.",
     "Set up the relevant equations: Write down the equations that relate to \x7bkeyword2\x7d.",
     "Solve for the unknown variable: Manipulate the equations to isolate the variable we\x27re looking for.",
     "Calculate the final answer: Plug in the values and compute the result."]
  | _ =>
    ["Understand the problem: This question is asking about \x7bkeyword1\x7d.",
     "Identify the key concepts: The main ideas here are \x7bkeyword2\x7d and \x7bkeyword3\x7d.",
     "Apply the relevant principles: Use the theoretical framework to approach the problem.",
     "Derive the conclusion: Based on the analysis, we can determine the answer."]

/-- `_generate_solution_with_templates` (source lines 538-572): substitute
keywords into the per-type solution template; when `step_by_step`, also
substitute them into each step template and join the numbered steps. -/
def generateSolutionWithTemplates (analysis : Analysis) (stepByStep : Bool) : SolutionResult :=
  { content := substituteKeywords (getSolutionTemplate analysis.type) analysis.keywords
    steps :=
      if stepByStep then
        some (numberSteps ((getStepTemplates analysis.type).map
          (fun t => substituteKeywords t analysis.keywords)))
      else none }

/-- `generate_solution` (source lines 454-481) in the template
configuration: try `_solve_basic_equation` first; a non-`None` result is
returned as-is (the returned dictionaries are non-empty, so Python
truthiness agrees with non-`None`-ness); otherwise analyze the question and
generate from templates. -/
def generateSolution (s : String) (stepByStep : Bool) : SolutionResult :=
  match solveBasicEquation s with
  | some sol => sol
  | none => generateSolutionWithTemplates (analyzeQuestionWithTemplates s) stepByStep

/-- The mutable state of `AIService` visible to the solver: the model flags
and the global RNG.  `_solve_basic_equation` reads and writes none of it. -/
structure ServiceState where
  useTransformers : Bool
  rng : RngState

/-- `_solve_basic_equation` as a state transformer on the service state:
the body touches no service state, so the state passes through unchanged. -/
def solveBasicEquationService (st : ServiceState) (s : String) :
    Option SolutionResult × ServiceState :=
  (solveBasicEquation s, st)

/-- A concrete analysis record used to instantiate general theorems. -/
def sampleAnalysis : Analysis :=
  { type := QuestionType.math
    difficulty := 1
    wordCount := 5
    keywords := [("perimeter")]
    originalContent := ("find the perimeter") }

/-- A second analysis that differs from `sampleAnalysis` in every field the
hint generator is claimed not to read. -/
def sampleAnalysisB : Analysis :=
  { type := QuestionType.math
    difficulty := 3
    wordCount := 99
    keywords := [("perimeter")]
    originalContent := ("another text") }

/-- A concrete RNG stream: draw `k` is `k`. -/
def sampleRng : RngState := ⟨fun k => k, 0⟩

/-- A second RNG stream agreeing with `sampleRng` on the first six draws
only. -/
def sampleRngB : RngState := ⟨fun k => min k 5, 0⟩

/-- C3 counterexample: on `"Solve for x: x + 9 = 34"` the implementation
answers with the five-step solve-for-x solution because that pattern is
tried first, while the order claimed by the spec (additive pattern first)
would answer with the three-step additive solution; the two orders are
observably different. -/
theorem solver_order_counterexample :
    specOrderSolve ("Solve for x: x + 9 = 34") = some (addSolution 9 34) ∧
    solveBasicEquation ("Solve for x: x + 9 = 34") = some (solveForSolution 9 34) ∧
    specOrderSolve ("Solve for x: x + 9 = 34")
      ≠ solveBasicEquation ("Solve for x: x + 9 = 34") := by
  refine ⟨rfl, rfl, ?_⟩
  decide

/-- C3 (amended): the solver tries its four regex patterns in the fixed
order solve-for-x phrasing first, then `x + a = b`, then `x - a = b`, then
`a*x = b`; the first pattern whose search succeeds determines the returned
solution and steps. -/
theorem solver_order_amended (s : String) (a b : Nat) :
    (searchSolve s.data = some (a, b) →
      solveBasicEquation s = some (solveForSolution a b)) ∧
    (searchSolve s.data = none → searchAdd s.data = some (a, b) →
      solveBasicEquation s = some (addSolution a b)) ∧
    (searchSolve s.data = none → searchAdd s.data = none →
      searchSub s.data = some (a, b) →
      solveBasicEquation s = some (subSolution a b)) ∧
    (searchSolve s.data = none → searchAdd s.data = none →
      searchSub s.data = none → searchMul s.data = some (a, b) →
      solveBasicEquation s = mulSolution a b) := by
  refine ⟨?_, ?_, ?_, ?_⟩
  · intro h1
    simp only [solveBasicEquation, h1]
  · intro h1 h2
    simp only [solveBasicEquation, h1, h2]
  · intro h1 h2 h3
    simp only [solveBasicEquation, h1, h2, h3]
  · intro h1 h2 h3 h4
    simp only [solveBasicEquation, h1, h2, h3, h4]

/-- C3 witness: the solve-for-x pattern wins on a concrete input that also
matches the additive pattern. -/
theorem solver_order_witness :
    solveBasicEquation ("Solve for x: x + 3 = 10") = some (solveForSolution 3 10) :=
  (solver_order_amended ("Solve for x: x + 3 = 10") 3 10).1 rfl

/-- C10 counterexample: the multiplicative pattern matches
`"x + 1 = 2 and 0x = 7"` with coefficient 0, yet the solver does not return
`None` — the additive pattern matched first, so the division never runs. -/
theorem solver_zero_counterexample :
    searchMul (("x + 1 = 2 and 0x = 7").data) = some (0, 7) ∧
    solveBasicEquation ("x + 1 = 2 and 0x = 7") = some (addSolution 1 2) :=
  ⟨rfl, rfl⟩

/-- C10 (amended): the solver is total — every input yields `None` or a
solution — and when no earlier pattern matches and the multiplicative
pattern matches with coefficient 0, the division error is caught and the
solver returns `None`. -/
theorem solver_total_amended (s : String) (b : Nat) :
    (solveBasicEquation s = none ∨ ∃ r, solveBasicEquation s = some r) ∧
    (searchSolve s.data = none → searchAdd s.data = none →
      searchSub s.data = none → searchMul s.data = some (0, b) →
      solveBasicEquation s = none) := by
  constructor
  · cases h : solveBasicEquation s with
    | none => exact Or.inl rfl
    | some r => exact Or.inr ⟨r, rfl⟩
  · intro h1 h2 h3 h4
    simp only [solveBasicEquation, h1, h2, h3, h4, mulSolution, if_pos]

/-- C10 witness: on `"0x = 9"` only the multiplicative pattern matches, its
coefficient is 0, and the solver returns `None`. -/
theorem solver_total_witness : solveBasicEquation ("0x = 9") = none :=
  (solver_total_amended ("0x = 9") 9).2 rfl rfl rfl rfl

/-- C2 counterexample: on `"0x = 5"` the multiplicative regex pattern
matches (and it is the only matching pattern), yet the solver returns
`None` because of the caught division by zero — so "returns a solution iff
some pattern matches" fails in the only-if-to-if direction. -/
theorem solver_match_counterexample :
    searchMul (("0x = 5").data) = some (0, 5) ∧
    searchSolve (("0x = 5").data) = none ∧
    searchAdd (("0x = 5").data) = none ∧
    searchSub (("0x = 5").data) = none ∧
    solveBasicEquation ("0x = 5") = none :=
  ⟨rfl, rfl, rfl, rfl, rfl⟩

/-- C2 (amended): the solver returns a solution iff one of the four
patterns matches and, in the multiplicative case, the captured coefficient
is nonzero; whenever it returns `None`, `generate_solution` falls through
to the general path (question analysis followed by template generation). -/
theorem solver_match_amended (s : String) (sbs : Bool) :
    ((solveBasicEquation s).isSome = effectiveMatch s) ∧
    (solveBasicEquation s = none →
      generateSolution s sbs
        = generateSolutionWithTemplates (analyzeQuestionWithTemplates s) sbs) := by
  constructor
  · cases h1 : searchSolve s.data with
    | some p => simp [solveBasicEquation, effectiveMatch, h1]
    | none =>
      cases h2 : searchAdd s.data with
      | some p => simp [solveBasicEquation, effectiveMatch, h1, h2]
      | none =>
        cases h3 : searchSub s.data with
        | some p => simp [solveBasicEquation, effectiveMatch, h1, h2, h3]
        | none =>
          cases h4 : searchMul s.data with
          | none => simp [solveBasicEquation, effectiveMatch, h1, h2, h3, h4]
          | some p =>
            obtain ⟨a, b⟩ := p
            by_cases ha : a = 0
            · subst ha
              simp [solveBasicEquation, effectiveMatch, h1, h2, h3, h4, mulSolution]
            · simp [solveBasicEquation, effectiveMatch, h1, h2, h3, h4, mulSolution, ha]
  · intro h
    simp only [generateSolution, h]

/-- C2 witness: `"hello"` matches no pattern; the solver returns `None` and
`generate_solution` produces the template result of the analyzed question. -/
theorem solver_match_witness :
    ((solveBasicEquation ("hello")).isSome = effectiveMatch ("hello")) ∧
    generateSolution ("hello") true
      = generateSolutionWithTemplates (analyzeQuestionWithTemplates ("hello")) true :=
  ⟨(solver_match_amended ("hello") true).1,
   (solver_match_amended ("hello") true).2 rfl⟩

/-- C4 (confirmed): any question whose lowercasing contains "solve",
"equation" or "=" is classified as math by the keyword fallback, no matter
what other category keywords it contains, because the math keyword list is
tested first. -/
theorem classifier_math_precedence (s : String)
    (h : containsSub ((pyLower s).data) (("solve").data) = true ∨
         containsSub ((pyLower s).data) (("equation").data) = true ∨
         containsSub ((pyLower s).data) (("=").data) = true) :
    (analyzeQuestionWithTemplates s).type = QuestionType.math := by
  have hany : anyKeyword mathKeywords (pyLower s) = true := by
    rcases h with h | h | h
    · exact List.any_eq_true.mpr ⟨("solve"), by simp [mathKeywords], h⟩
    · exact List.any_eq_true.mpr ⟨("equation"), by simp [mathKeywords], h⟩
    · exact List.any_eq_true.mpr ⟨("="), by simp [mathKeywords], h⟩
  show classifyFallback (pyLower s) = QuestionType.math
  simp only [classifyFallback, hany, if_true]

/-- C4 witness: a question containing the word "force" (a physics keyword)
and an "=" sign is still classified math. -/
theorem classifier_math_precedence_witness :
    (containsSub ((pyLower ("The force F = ma")).data) (("solve").data) = true ∨
     containsSub ((pyLower ("The force F = ma")).data) (("equation").data) = true ∨
     containsSub ((pyLower ("The force F = ma")).data) (("=").data) = true) ∧
    (analyzeQuestionWithTemplates ("The force F = ma")).type = QuestionType.math :=
  ⟨Or.inr (Or.inr (by decide)),
   classifier_math_precedence ("The force F = ma") (Or.inr (Or.inr (by decide)))⟩

/-- C5 (confirmed): the equation solver is deterministic and
side-effect-free — as a state transformer on the service state it leaves
the state unchanged, its output does not depend on the state, and running
it twice in sequence on the same input yields equal results. -/
theorem solver_state_free (st st₁ st₂ : ServiceState) (s : String) :
    (solveBasicEquationService st s).2 = st ∧
    (solveBasicEquationService st₁ s).1 = (solveBasicEquationService st₂ s).1 ∧
    (solveBasicEquationService ((solveBasicEquationService st s).2) s).1
      = (solveBasicEquationService st s).1 :=
  ⟨rfl, rfl, rfl⟩

/-- The hint loop starting at index `i` with `n` iterations left emits
exactly the levels `i, i+1, ..., i+n-1`. -/
theorem genHintsGo_map_level (tpl : List (List String)) (kws : List String) :
    ∀ (n i : Nat) (g : RngState),
      (genHintsGo tpl kws i n g).1.map Hint.level = List.range' i n := by
  intro n
  induction n with
  | zero => intro i g; rfl
  | succ n ih =>
    intro i g
    simp only [genHintsGo, List.map_cons, List.range'_succ]
    rw [ih]

/-- C9 (confirmed): for `num_hints ≥ 1` and `max_level ≥ 1` the template
hint generator returns exactly `min num_hints max_level` hints and their
levels are exactly `1, 2, ..., min num_hints max_level` in that order. -/
theorem hint_levels_exact (a : Analysis) (nh ml : Nat) (g : RngState)
    (_h1 : 1 ≤ nh) (_h2 : 1 ≤ ml) :
    (generateHintsWithTemplates a nh ml g).1.length = min nh ml ∧
    (generateHintsWithTemplates a nh ml g).1.map Hint.level
      = List.range' 1 (min nh ml) := by
  have hm := genHintsGo_map_level (getHintTemplates a.type) a.keywords (min nh ml) 1 g
  constructor
  · have := congrArg List.length hm
    simpa [List.length_map, List.length_range'] using this
  · exact hm

/-- C9 witness: with two hints requested and max level three, exactly two
hints of levels 1 and 2 come back. -/
theorem hint_levels_exact_witness :
    (generateHintsWithTemplates sampleAnalysis 2 3 sampleRng).1.length = min 2 3 ∧
    (generateHintsWithTemplates sampleAnalysis 2 3 sampleRng).1.map Hint.level
      = List.range' 1 (min 2 3) :=
  hint_levels_exact sampleAnalysis 2 3 sampleRng (by decide) (by decide)

/-- If two RNG states are at the same position and their streams agree on
the next `n` draws, the hint loop produces the same hints from both. -/
theorem genHintsGo_congr (tpl : List (List String)) (kws : List String) :
    ∀ (n i : Nat) (g₁ g₂ : RngState), g₁.idx = g₂.idx →
      (∀ k, k < n → g₁.seq (g₁.idx + k) = g₂.seq (g₂.idx + k)) →
      (genHintsGo tpl kws i n g₁).1 = (genHintsGo tpl kws i n g₂).1 := by
  intro n
  induction n with
  | zero => intro i g₁ g₂ _ _; rfl
  | succ n ih =>
    intro i g₁ g₂ hidx hseq
    have h0 : g₁.seq g₁.idx = g₂.seq g₂.idx := by
      have := hseq 0 (Nat.succ_pos n)
      simpa using this
    have hpick : (randChoice (tpl.getD (min i tpl.length - 1) ([])) g₁).1
        = (randChoice (tpl.getD (min i tpl.length - 1) ([])) g₂).1 := by
      simp only [randChoice]
      rw [h0]
    have htail : (genHintsGo tpl kws (i + 1) n
          (randChoice (tpl.getD (min i tpl.length - 1) ([])) g₁).2).1
        = (genHintsGo tpl kws (i + 1) n
          (randChoice (tpl.getD (min i tpl.length - 1) ([])) g₂).2).1 := by
      apply ih
      · simp only [randChoice]
        rw [hidx]
      · intro k hk
        have h := hseq (k + 1) (Nat.succ_lt_succ hk)
        simp only [randChoice]
        have e1 : g₁.idx + 1 + k = g₁.idx + (k + 1) := by omega
        have e2 : g₂.idx + 1 + k = g₂.idx + (k + 1) := by omega
        rw [e1, e2]
        exact h
    simp only [genHintsGo, List.cons.injEq]
    exact ⟨by rw [hpick], htail⟩

/-- C6 (confirmed): the template hint generator is deterministic given the
seed — it reads only the category and keyword list of the analysis, so two
analyses agreeing there, with the same `num_hints` and `max_level` and RNG
states at the same position whose streams agree on the draws consumed,
produce identical hint lists. -/
theorem hints_template_deterministic (a₁ a₂ : Analysis) (nh ml : Nat)
    (g₁ g₂ : RngState)
    (ht : a₁.type = a₂.type) (hk : a₁.keywords = a₂.keywords)
    (hidx : g₁.idx = g₂.idx)
    (hseq : ∀ k, k < min nh ml → g₁.seq (g₁.idx + k) = g₂.seq (g₂.idx + k)) :
    (generateHintsWithTemplates a₁ nh ml g₁).1
      = (generateHintsWithTemplates a₂ nh ml g₂).1 := by
  unfold generateHintsWithTemplates
  rw [ht, hk]
  exact genHintsGo_congr (getHintTemplates a₂.type) a₂.keywords (min nh ml) 1 g₁ g₂ hidx hseq

/-- C6 witness: two analyses differing in difficulty, word count and
original content but agreeing on category and keywords, with two streams
agreeing on the first draws, give identical hint lists. -/
theorem hints_template_deterministic_witness :
    (generateHintsWithTemplates sampleAnalysis 2 3 sampleRng).1
      = (generateHintsWithTemplates sampleAnalysisB 2 3 sampleRngB).1 :=
  hints_template_deterministic sampleAnalysis sampleAnalysisB 2 3 sampleRng sampleRngB
    rfl rfl rfl
    (fun k hk => by
      simp only [sampleRng, sampleRngB]
      have : k < 2 := by simpa using hk
      omega)

set_option maxRecDepth 60000 in
/-- C8 counterexample: an 80-word question and a 100-word question both get
difficulty 3 (the cap), so no single constant makes the score proportional
to the word count. -/
theorem difficulty_cap_counterexample :
    (analyzeQuestionWithTemplates (repWords 80)).wordCount = 80 ∧
    (analyzeQuestionWithTemplates (repWords 100)).wordCount = 100 ∧
    (analyzeQuestionWithTemplates (repWords 80)).difficulty = 3 ∧
    (analyzeQuestionWithTemplates (repWords 100)).difficulty = 3 ∧
    ¬ ∃ c : ℚ,
        (analyzeQuestionWithTemplates (repWords 80)).difficulty = c * 80 ∧
        (analyzeQuestionWithTemplates (repWords 100)).difficulty = c * 100 := by
  have h80 : (pySplit (pyLower (repWords 80))).length = 80 := by decide
  have h100 : (pySplit (pyLower (repWords 100))).length = 100 := by decide
  have d80 : (analyzeQuestionWithTemplates (repWords 80)).difficulty = 3 := by
    show min (((pySplit (pyLower (repWords 80))).length : ℚ) / 20) 3 = 3
    rw [h80]
    norm_num
  have d100 : (analyzeQuestionWithTemplates (repWords 100)).difficulty = 3 := by
    show min (((pySplit (pyLower (repWords 100))).length : ℚ) / 20) 3 = 3
    rw [h100]
    norm_num
  refine ⟨h80, h100, d80, d100, ?_⟩
  rintro ⟨c, hc1, hc2⟩
  rw [d80] at hc1
  rw [d100] at hc2
  linarith

/-- C8 (amended): the fallback difficulty is `min(word count / 20, 3)` — it
is monotone in the word count and proportional to it (constant 1/20) up to
the cap of 3, which is reached at 60 words and constant beyond. -/
theorem difficulty_formula_amended (s s₁ s₂ : String) :
    ((analyzeQuestionWithTemplates s).difficulty
        = min (((analyzeQuestionWithTemplates s).wordCount : ℚ) / 20) 3) ∧
    ((analyzeQuestionWithTemplates s₁).wordCount
        ≤ (analyzeQuestionWithTemplates s₂).wordCount →
      (analyzeQuestionWithTemplates s₁).difficulty
        ≤ (analyzeQuestionWithTemplates s₂).difficulty) ∧
    ((analyzeQuestionWithTemplates s).wordCount ≤ 60 →
      (analyzeQuestionWithTemplates s).difficulty
        = ((analyzeQuestionWithTemplates s).wordCount : ℚ) / 20) := by
  refine ⟨rfl, ?_, ?_⟩
  · intro h
    show min (((pySplit (pyLower s₁)).length : ℚ) / 20) 3
        ≤ min (((pySplit (pyLower s₂)).length : ℚ) / 20) 3
    apply min_le_min _ le_rfl
    apply div_le_div_of_nonneg_right _ (by norm_num)
    exact_mod_cast h
  · intro h
    show min (((pySplit (pyLower s)).length : ℚ) / 20) 3
        = ((pySplit (pyLower s)).length : ℚ) / 20
    apply min_eq_left
    have hq : ((pySplit (pyLower s)).length : ℚ) ≤ 60 := by exact_mod_cast h
    linarith

set_option maxRecDepth 60000 in
/-- C8 witness: a three-word question gets difficulty 3/20, and difficulty
is monotone between a two-word and a five-word question. -/
theorem difficulty_formula_witness :
    (analyzeQuestionWithTemplates (repWords 3)).difficulty
      = ((analyzeQuestionWithTemplates (repWords 3)).wordCount : ℚ) / 20 ∧
    (analyzeQuestionWithTemplates (repWords 2)).difficulty
      ≤ (analyzeQuestionWithTemplates (repWords 5)).difficulty :=
  ⟨(difficulty_formula_amended (repWords 3) (repWords 3) (repWords 3)).2.2 (by decide),
   (difficulty_formula_amended (repWords 2) (repWords 2) (repWords 5)).2.1 (by decide)⟩

/-- C1 counterexample: `"x + 1 = 2 and x + 9 = 34"` contains the
sub-equation `"x + 9 = 34"`, but the solver answers x = 1, not x = 25,
because `re.search` returns the leftmost additive match. -/
theorem solver_examples_counterexample :
    containsSub (("x + 1 = 2 and x + 9 = 34").data) (("x + 9 = 34").data) = true ∧
    solveBasicEquation ("x + 1 = 2 and x + 9 = 34") = some (addSolution 1 2) ∧
    (addSolution 1 2).content = "The solution is x = 1." ∧
    containsSub (((addSolution 1 2).content).data) (("x = 25").data) = false := by
  exact ⟨by decide, rfl, rfl, by decide⟩

/-- C1 (amended): the three spec inputs get x = 25, x = 15 and x = 4 (the
last rendered "4.0" by float division); in general the winning pattern's
leftmost match `(a, b)` yields a content string stating x = b - a for the
additive pattern, x = b + a for the subtractive one, and x = b / a for the
multiplicative one when a is nonzero — but an input that merely contains a
given sub-equation can be answered from an earlier or more leftward match. -/
theorem solver_examples_amended (s : String) (a b : Nat) :
    (solveBasicEquation ("x + 9 = 34") = some (addSolution 9 34) ∧
      (addSolution 9 34).content = "The solution is x = 25.") ∧
    (solveBasicEquation ("x - 5 = 10") = some (subSolution 5 10) ∧
      (subSolution 5 10).content = "The solution is x = 15.") ∧
    (solveBasicEquation ("3x = 12") = mulSolution 3 12 ∧
      (mulSolution 3 12).elim ("") SolutionResult.content = "The solution is x = 4.0." ∧
      containsSub ((("The solution is x = 4.0.").data)) (("x = 4").data) = true) ∧
    (searchSolve s.data = none → searchAdd s.data = some (a, b) →
      (solveBasicEquation s).elim ("") SolutionResult.content
        = "The solution is x = " ++ toString ((b : Int) - (a : Int)) ++ ".") ∧
    (searchSolve s.data = none → searchAdd s.data = none →
      searchSub s.data = some (a, b) →
      (solveBasicEquation s).elim ("") SolutionResult.content
        = "The solution is x = " ++ toString (b + a) ++ ".") ∧
    (searchSolve s.data = none → searchAdd s.data = none →
      searchSub s.data = none → searchMul s.data = some (a, b) → a ≠ 0 →
      (solveBasicEquation s).elim ("") SolutionResult.content
        = "The solution is x = " ++ floatStr ((b : ℚ) / (a : ℚ)) ++ ".") := by
  refine ⟨⟨rfl, rfl⟩, ⟨rfl, rfl⟩, ⟨rfl, ?_, by decide⟩, ?_, ?_, ?_⟩
  · have h : ((12 : Nat) : ℚ) / ((3 : Nat) : ℚ) = 4 := by norm_num
    simp only [mulSolution, if_neg (by norm_num : ¬ (3 : Nat) = 0), Option.elim, h]
    decide
  · intro h1 h2
    simp only [solveBasicEquation, h1, h2, addSolution, Option.elim]
  · intro h1 h2 h3
    simp only [solveBasicEquation, h1, h2, h3, subSolution, Option.elim]
  · intro h1 h2 h3 h4 ha
    simp only [solveBasicEquation, h1, h2, h3, h4, mulSolution, if_neg ha, Option.elim]

/-- C1 witness: the three general rules instantiated on fresh concrete
equations. -/
theorem solver_examples_witness :
    (solveBasicEquation ("x + 90 = 100")).elim ("") SolutionResult.content
      = "The solution is x = " ++ toString ((100 : Int) - (90 : Int)) ++ "." ∧
    (solveBasicEquation ("x - 7 = 8")).elim ("") SolutionResult.content
      = "The solution is x = " ++ toString (8 + 7) ++ "." ∧
    (solveBasicEquation ("5x = 10")).elim ("") SolutionResult.content
      = "The solution is x = " ++ floatStr ((10 : ℚ) / (5 : ℚ)) ++ "." := by
  refine ⟨?_, ?_, ?_⟩
  · exact (solver_examples_amended ("x + 90 = 100") 90 100).2.2.2.1 rfl rfl
  · exact (solver_examples_amended ("x - 7 = 8") 7 8).2.2.2.2.1 rfl rfl rfl
  · have h := (solver_examples_amended ("5x = 10") 5 10).2.2.2.2.2 rfl rfl rfl rfl
      (by decide)
    simpa using h

/-- A list is a `isPrefixOf`-prefix of itself followed by anything. -/
theorem isPrefixOf_self_append (l rest : List Char) :
    l.isPrefixOf (l ++ rest) = true := by
  induction l with
  | nil => simp [List.isPrefixOf]
  | cons c cs ih => simp [List.isPrefixOf, ih]

/-- A pattern occurring in the middle of a string is found by
`containsSub`. -/
theorem containsSub_middle (pat l₂ : List Char) :
    ∀ l₁, containsSub (l₁ ++ (pat ++ l₂)) pat = true := by
  intro l₁
  induction l₁ with
  | nil =>
    simp only [List.nil_append]
    cases hp : pat ++ l₂ with
    | nil =>
      have hpat : pat = [] := (List.append_eq_nil.mp hp).1
      rw [hpat]
      rfl
    | cons c cs =>
      show (pat.isPrefixOf (c :: cs) || containsSub cs pat) = true
      rw [← hp, isPrefixOf_self_append]
      rfl
  | cons c cs ih =>
    show (pat.isPrefixOf (c :: (cs ++ (pat ++ l₂))) || containsSub (cs ++ (pat ++ l₂)) pat)
        = true
    rw [ih]
    simp

/-- `replaceAllGo` passes over a region free of the pattern head
unchanged. -/
theorem replaceAllGo_skip (pat rep p : List Char) (hpat : pat = '\x7b' :: p) :
    ∀ (t rest : List Char), '\x7b' ∉ t →
      replaceAllGo pat rep (t ++ rest) = t ++ replaceAllGo pat rep rest := by
  intro t
  induction t with
  | nil => intro rest _; simp
  | cons c cs ih =>
    intro rest hmem
    have hc : ('\x7b' : Char) ≠ c := by
      intro e
      exact hmem (by rw [e]; exact List.mem_cons_self c cs)
    have hbeq : (('\x7b' : Char) == c) = false := beq_eq_false_iff_ne.mpr hc
    have hpre : pat.isPrefixOf (c :: (cs ++ rest)) = false := by
      rw [hpat]
      show (('\x7b' == c) && p.isPrefixOf (cs ++ rest)) = false
      rw [hbeq]
      rfl
    show replaceAllGo pat rep (c :: (cs ++ rest)) = c :: (cs ++ replaceAllGo pat rep rest)
    simp only [replaceAllGo, hpre, Bool.false_eq_true, if_false]
    exact congrArg (c :: ·) (ih rest (fun hm => hmem (List.mem_cons_of_mem c hm)))

/-- `replaceAllGo` leaves a pattern-head-free string unchanged. -/
theorem replaceAllGo_id (pat rep p : List Char) (hpat : pat = '\x7b' :: p)
    (t : List Char) (h : '\x7b' ∉ t) : replaceAllGo pat rep t = t := by
  have h0 : replaceAllGo pat rep ([] : List Char) = [] := by simp [replaceAllGo]
  have hs := replaceAllGo_skip pat rep p hpat t [] h
  rw [List.append_nil] at hs
  rw [hs, h0, List.append_nil]

/-- On a string that is one clean occurrence of the pattern between two
brace-free regions, `replaceAllGo` substitutes exactly that occurrence. -/
theorem replaceAllGo_middle (pat rep p : List Char) (hpat : pat = '\x7b' :: p)
    (t₁ t₂ : List Char) (h₁ : '\x7b' ∉ t₁) (h₂ : '\x7b' ∉ t₂) :
    replaceAllGo pat rep (t₁ ++ (pat ++ t₂)) = t₁ ++ (rep ++ t₂) := by
  rw [replaceAllGo_skip pat rep p hpat t₁ _ h₁]
  congr 1
  subst hpat
  show replaceAllGo ('\x7b' :: p) rep ('\x7b' :: (p ++ t₂)) = rep ++ t₂
  have hpre : ('\x7b' :: p).isPrefixOf ('\x7b' :: (p ++ t₂)) = true :=
    isPrefixOf_self_append ('\x7b' :: p) t₂
  simp only [replaceAllGo, hpre, if_true]
  have hd : (p ++ t₂).drop (('\x7b' :: p).length - 1) = t₂ := by
    simp [List.length_cons]
  rw [hd]
  rw [replaceAllGo_id ('\x7b' :: p) rep p rfl t₂ h₂]

/-- Every hint produced by the template loop has as content a keyword
substitution of some template string. -/
theorem genHintsGo_content (tpl : List (List String)) (kws : List String) :
    ∀ (n i : Nat) (g : RngState) (h : Hint),
      h ∈ (genHintsGo tpl kws i n g).1 →
      ∃ t, h.content = substituteKeywords t kws := by
  intro n
  induction n with
  | zero =>
    intro i g h hmem
    simp [genHintsGo] at hmem
  | succ n ih =>
    intro i g h hmem
    simp only [genHintsGo, List.mem_cons] at hmem
    rcases hmem with rfl | hmem
    · exact ⟨_, rfl⟩
    · exact ih (i + 1) _ h hmem

/-- A pattern starting with a brace has no occurrence in a brace-free
string. -/
theorem containsSub_false_of_not_mem (p : List Char) :
    ∀ (l : List Char), '\x7b' ∉ l → containsSub l ('\x7b' :: p) = false := by
  intro l
  induction l with
  | nil => intro _; rfl
  | cons c cs ih =>
    intro h
    have hc : ('\x7b' : Char) ≠ c := fun e => h (by rw [e]; exact List.mem_cons_self c cs)
    have hbeq : (('\x7b' : Char) == c) = false := beq_eq_false_iff_ne.mpr hc
    show (('\x7b' :: p).isPrefixOf (c :: cs) || containsSub cs ('\x7b' :: p)) = false
    have hpre : ('\x7b' :: p).isPrefixOf (c :: cs) = false := by
      show (('\x7b' == c) && p.isPrefixOf cs) = false
      rw [hbeq]
      rfl
    rw [hpre, ih (fun hm => h (List.mem_cons_of_mem c hm))]
    rfl

/-- A prefix test against an appended list is decided within the first part
when the candidate prefix is no longer than it. -/
theorem isPrefixOf_append_of_length_le :
    ∀ (l₁ l₂ rest : List Char), l₁.length ≤ l₂.length →
      l₁.isPrefixOf (l₂ ++ rest) = l₁.isPrefixOf l₂ := by
  intro l₁
  induction l₁ with
  | nil => intro l₂ rest _; simp [List.isPrefixOf]
  | cons a as ih =>
    intro l₂ rest hlen
    cases l₂ with
    | nil => simp at hlen
    | cons b bs =>
      show ((a == b) && as.isPrefixOf (bs ++ rest)) = ((a == b) && as.isPrefixOf bs)
      rw [ih bs rest (by simpa using hlen)]

/-- A brace-headed pattern that is not a prefix of another brace-headed
pattern of at least its length does not occur at all in a string whose only
braces are that other pattern's. -/
theorem containsSub_middle_false (pi pj : List Char)
    (hne : ('\x7b' :: pi).isPrefixOf ('\x7b' :: pj) = false)
    (hlen : pi.length ≤ pj.length)
    (hpj : '\x7b' ∉ pj) (t₂ : List Char) (h₂ : '\x7b' ∉ t₂) :
    ∀ t₁, '\x7b' ∉ t₁ →
      containsSub (t₁ ++ (('\x7b' :: pj) ++ t₂)) ('\x7b' :: pi) = false := by
  intro t₁
  induction t₁ with
  | nil =>
    intro _
    simp only [List.nil_append]
    show (('\x7b' :: pi).isPrefixOf ('\x7b' :: (pj ++ t₂))
        || containsSub (pj ++ t₂) ('\x7b' :: pi)) = false
    have h1 : ('\x7b' :: pi).isPrefixOf ('\x7b' :: (pj ++ t₂))
        = ('\x7b' :: pi).isPrefixOf ('\x7b' :: pj) :=
      isPrefixOf_append_of_length_le ('\x7b' :: pi) ('\x7b' :: pj) t₂
        (by simpa using Nat.succ_le_succ hlen)
    have h2 : containsSub (pj ++ t₂) ('\x7b' :: pi) = false :=
      containsSub_false_of_not_mem pi (pj ++ t₂)
        (fun hm => by rcases List.mem_append.mp hm with hm | hm
                      · exact hpj hm
                      · exact h₂ hm)
    rw [h1, hne, h2]
    rfl
  | cons c cs ih =>
    intro h
    have hc : ('\x7b' : Char) ≠ c := fun e => h (by rw [e]; exact List.mem_cons_self c cs)
    have hbeq : (('\x7b' : Char) == c) = false := beq_eq_false_iff_ne.mpr hc
    show (('\x7b' :: pi).isPrefixOf (c :: (cs ++ (('\x7b' :: pj) ++ t₂)))
        || containsSub (cs ++ (('\x7b' :: pj) ++ t₂)) ('\x7b' :: pi)) = false
    have hpre : ('\x7b' :: pi).isPrefixOf (c :: (cs ++ (('\x7b' :: pj) ++ t₂))) = false := by
      show (('\x7b' == c) && pi.isPrefixOf (cs ++ (('\x7b' :: pj) ++ t₂))) = false
      rw [hbeq]
      rfl
    rw [hpre, ih (fun hm => h (List.mem_cons_of_mem c hm))]
    rfl

/-- A substitution iteration whose placeholder does not occur leaves the
text unchanged. -/
theorem substStep_noop (text : String) (p : Nat × String)
    (h : containsSub text.data ((placeholder (p.1 + 1)).data) = false) :
    substStep text p = text := by
  simp only [substStep]
  rw [h]
  simp

/-- The data of any placeholder starts with an opening brace. -/
theorem placeholder_data_head (j : Nat) :
    (placeholder j).data
      = '\x7b' :: ((("keyword").data) ++ ((toString j).data) ++ (("\x7d").data)) := by
  show ((("\x7bkeyword") ++ toString j ++ ("\x7d")).data) = _
  rw [String.data_append, String.data_append]
  rfl

/-- Any remaining substitution iterations are no-ops on brace-free text. -/
theorem foldl_substStep_noop :
    ∀ (ps : List (Nat × String)) (text : String),
      '\x7b' ∉ text.data → List.foldl substStep text ps = text := by
  intro ps
  induction ps with
  | nil => intro text _; rfl
  | cons p ps ih =>
    intro text h
    rw [List.foldl_cons]
    have hno : containsSub text.data ((placeholder (p.1 + 1)).data) = false := by
      rw [placeholder_data_head]
      exact containsSub_false_of_not_mem _ text.data h
    rw [substStep_noop text p hno]
    exact ih text h

/-- The substitution iteration for index `m` replaces a clean occurrence of
`placeholder (m+1)` between brace-free regions by its keyword. -/
theorem substStep_middle (m : Nat) (t₁ t₂ k : String)
    (h₁ : '\x7b' ∉ t₁.data) (h₂ : '\x7b' ∉ t₂.data) :
    substStep (t₁ ++ placeholder (m + 1) ++ t₂) (m, k) = t₁ ++ k ++ t₂ := by
  have hdata : (t₁ ++ placeholder (m + 1) ++ t₂).data
      = t₁.data ++ ((placeholder (m + 1)).data ++ t₂.data) := by
    rw [String.data_append, String.data_append, List.append_assoc]
  have hguard : containsSub ((t₁ ++ placeholder (m + 1) ++ t₂).data)
      ((placeholder (m + 1)).data) = true := by
    rw [hdata]
    exact containsSub_middle ((placeholder (m + 1)).data) t₂.data t₁.data
  show (if containsSub ((t₁ ++ placeholder (m + 1) ++ t₂).data) ((placeholder (m + 1)).data)
      then pyReplace (t₁ ++ placeholder (m + 1) ++ t₂) (placeholder (m + 1)) k
      else (t₁ ++ placeholder (m + 1) ++ t₂)) = t₁ ++ k ++ t₂
  rw [hguard]
  simp only [if_true]
  apply String.ext
  show replaceAllGo ((placeholder (m + 1)).data) k.data ((t₁ ++ placeholder (m + 1) ++ t₂).data)
      = (t₁ ++ k ++ t₂).data
  rw [hdata]
  rw [replaceAllGo_middle ((placeholder (m + 1)).data) k.data
    ((("keyword").data) ++ ((toString (m + 1)).data) ++ (("\x7d").data))
    (placeholder_data_head (m + 1)) t₁.data t₂.data h₁ h₂]
  rw [String.data_append, String.data_append, List.append_assoc]

/-- C7 (confirmed): keyword substitution touches only the first three
keywords — substituting a list and its three-element prefix agree; for
every j in 1..min(3, number of keywords), a clean occurrence of
`placeholder j` in the template is replaced by exactly the j-th keyword
(stated for j = 1, 2, 3 over keyword lists of every sufficient length, the
tail `rest` arbitrary); placeholders whose index exceeds the number of
supplied keywords survive untouched; and both the solution path and every
hint produced by the hint path are keyword substitutions of a template. -/
theorem keyword_substitution (t t₁ t₂ k₁ k₂ k₃ : String) (rest kws : List String)
    (a : Analysis) (sbs : Bool) :
    (substituteKeywords t kws = substituteKeywords t (kws.take 3)) ∧
    ('\x7b' ∉ t₁.data → '\x7b' ∉ t₂.data → '\x7b' ∉ k₁.data →
      substituteKeywords (t₁ ++ placeholder 1 ++ t₂) (k₁ :: rest)
        = t₁ ++ k₁ ++ t₂) ∧
    ('\x7b' ∉ t₁.data → '\x7b' ∉ t₂.data → '\x7b' ∉ k₂.data →
      substituteKeywords (t₁ ++ placeholder 2 ++ t₂) (k₁ :: k₂ :: rest)
        = t₁ ++ k₂ ++ t₂) ∧
    ('\x7b' ∉ t₁.data → '\x7b' ∉ t₂.data → '\x7b' ∉ k₃.data →
      substituteKeywords (t₁ ++ placeholder 3 ++ t₂) (k₁ :: k₂ :: k₃ :: rest)
        = t₁ ++ k₃ ++ t₂) ∧
    (containsSub ((t₁ ++ placeholder 3 ++ t₂).data) ((placeholder 1).data) = false →
     containsSub ((t₁ ++ placeholder 3 ++ t₂).data) ((placeholder 2).data) = false →
      substituteKeywords (t₁ ++ placeholder 3 ++ t₂) [k₁, k₂]
        = t₁ ++ placeholder 3 ++ t₂) ∧
    ((generateSolutionWithTemplates a sbs).content
      = substituteKeywords (getSolutionTemplate a.type) a.keywords) ∧
    (∀ (g : RngState) (nh ml : Nat) (h : Hint),
      h ∈ (generateHintsWithTemplates a nh ml g).1 →
      ∃ tpl, h.content = substituteKeywords tpl a.keywords) := by
  have hmem3 : ∀ (x y z : String), '\x7b' ∉ x.data → '\x7b' ∉ y.data → '\x7b' ∉ z.data →
      '\x7b' ∉ (x ++ y ++ z).data := by
    intro x y z hx hy hz
    rw [String.data_append, String.data_append]
    intro hm
    rcases List.mem_append.mp hm with hm | hm
    · rcases List.mem_append.mp hm with hm | hm
      · exact hx hm
      · exact hy hm
    · exact hz hm
  have hnoij : ∀ (pi pj : List Char), ('\x7b' :: pi).isPrefixOf ('\x7b' :: pj) = false →
      pi.length ≤ pj.length → '\x7b' ∉ pj →
      ∀ (i j : Nat), (placeholder i).data = '\x7b' :: pi → (placeholder j).data = '\x7b' :: pj →
      '\x7b' ∉ t₁.data → '\x7b' ∉ t₂.data →
      containsSub ((t₁ ++ placeholder j ++ t₂).data) ((placeholder i).data) = false := by
    intro pi pj hne hlen hpj i j hi hj h₁ h₂
    rw [String.data_append, String.data_append, List.append_assoc, hi, hj]
    exact containsSub_middle_false pi pj hne hlen hpj t₂.data h₂ t₁.data h₁
  refine ⟨?_, ?_, ?_, ?_, ?_, rfl, ?_⟩
  · simp only [substituteKeywords, List.take_take, Nat.min_self]
  · intro h₁ h₂ hk
    have e : substituteKeywords (t₁ ++ placeholder 1 ++ t₂) (k₁ :: rest)
        = List.foldl substStep (substStep (t₁ ++ placeholder 1 ++ t₂) (0, k₁))
            (List.enumFrom 1 (rest.take 2)) := rfl
    rw [e]
    have s1 : substStep (t₁ ++ placeholder 1 ++ t₂) (0, k₁) = t₁ ++ k₁ ++ t₂ :=
      substStep_middle 0 t₁ t₂ k₁ h₁ h₂
    rw [s1]
    exact foldl_substStep_noop _ _ (hmem3 t₁ k₁ t₂ h₁ hk h₂)
  · intro h₁ h₂ hk
    have e : substituteKeywords (t₁ ++ placeholder 2 ++ t₂) (k₁ :: k₂ :: rest)
        = List.foldl substStep
            (substStep (substStep (t₁ ++ placeholder 2 ++ t₂) (0, k₁)) (1, k₂))
            (List.enumFrom 2 (rest.take 1)) := rfl
    rw [e]
    have hno1 : containsSub ((t₁ ++ placeholder 2 ++ t₂).data)
        ((placeholder (0 + 1)).data) = false :=
      hnoij (("keyword1\x7d").data) (("keyword2\x7d").data) (by decide) (by decide)
        (by decide) (0 + 1) 2 (by decide) (by decide) h₁ h₂
    rw [substStep_noop (t₁ ++ placeholder 2 ++ t₂) (0, k₁) hno1]
    have s2 : substStep (t₁ ++ placeholder 2 ++ t₂) (1, k₂) = t₁ ++ k₂ ++ t₂ :=
      substStep_middle 1 t₁ t₂ k₂ h₁ h₂
    rw [s2]
    exact foldl_substStep_noop _ _ (hmem3 t₁ k₂ t₂ h₁ hk h₂)
  · intro h₁ h₂ hk
    have e : substituteKeywords (t₁ ++ placeholder 3 ++ t₂) (k₁ :: k₂ :: k₃ :: rest)
        = substStep (substStep (substStep (t₁ ++ placeholder 3 ++ t₂) (0, k₁)) (1, k₂))
            (2, k₃) := rfl
    rw [e]
    have hno1 : containsSub ((t₁ ++ placeholder 3 ++ t₂).data)
        ((placeholder (0 + 1)).data) = false :=
      hnoij (("keyword1\x7d").data) (("keyword3\x7d").data) (by decide) (by decide)
        (by decide) (0 + 1) 3 (by decide) (by decide) h₁ h₂
    rw [substStep_noop (t₁ ++ placeholder 3 ++ t₂) (0, k₁) hno1]
    have hno2 : containsSub ((t₁ ++ placeholder 3 ++ t₂).data)
        ((placeholder (1 + 1)).data) = false :=
      hnoij (("keyword2\x7d").data) (("keyword3\x7d").data) (by decide) (by decide)
        (by decide) (1 + 1) 3 (by decide) (by decide) h₁ h₂
    rw [substStep_noop (t₁ ++ placeholder 3 ++ t₂) (1, k₂) hno2]
    exact substStep_middle 2 t₁ t₂ k₃ h₁ h₂
  · intro hg1 hg2
    show (if containsSub
          ((if containsSub ((t₁ ++ placeholder 3 ++ t₂).data) ((placeholder 1).data)
              then pyReplace (t₁ ++ placeholder 3 ++ t₂) (placeholder 1) k₁
              else (t₁ ++ placeholder 3 ++ t₂)).data) ((placeholder 2).data)
        then pyReplace _ (placeholder 2) k₂
        else _) = t₁ ++ placeholder 3 ++ t₂
    rw [hg1]
    simp only [Bool.false_eq_true, if_false]
    rw [hg2]
    simp only [Bool.false_eq_true, if_false]
  · intro g nh ml h hmem
    exact genHintsGo_content (getHintTemplates a.type) a.keywords (min nh ml) 1 g h hmem

/-- C7 witness: each of the three positional clauses exercised on concrete
template shapes and keyword lists — `placeholder 1` receives the first of
two keywords, `placeholder 2` the second of two, `placeholder 3` the third
of three — together with the take-3 agreement on a four-keyword list. -/
theorem keyword_substitution_witness :
    substituteKeywords (("Try applying the concept of ") ++ placeholder 1
        ++ (" to this problem.")) [("energy"), ("mass")]
      = ("Try applying the concept of ") ++ ("energy") ++ (" to this problem.") ∧
    substituteKeywords (("Write down the equations that relate to ") ++ placeholder 2
        ++ (".")) [("force"), ("velocity")]
      = ("Write down the equations that relate to ") ++ ("velocity") ++ (".") ∧
    substituteKeywords (("considering its relationship with ") ++ placeholder 3
        ++ (",")) [("alpha"), ("beta"), ("gamma")]
      = ("considering its relationship with ") ++ ("gamma") ++ (",") ∧
    substituteKeywords (("alpha beta")) [("k1"), ("k2"), ("k3"), ("k4")]
      = substituteKeywords (("alpha beta")) ([("k1"), ("k2"), ("k3"), ("k4")].take 3) := by
  refine ⟨?_, ?_, ?_, ?_⟩
  · exact (keyword_substitution ("") ("Try applying the concept of ")
      (" to this problem.") ("energy") ("") ("") [("mass")] [] sampleAnalysis
      true).2.1 (by decide) (by decide) (by decide)
  · exact (keyword_substitution ("") ("Write down the equations that relate to ")
      (".") ("force") ("velocity") ("") [] [] sampleAnalysis
      true).2.2.1 (by decide) (by decide) (by decide)
  · exact (keyword_substitution ("") ("considering its relationship with ")
      (",") ("alpha") ("beta") ("gamma") [] [] sampleAnalysis
      true).2.2.2.1 (by decide) (by decide) (by decide)
  · exact (keyword_substitution ("alpha beta") ("") ("") ("") ("") ("") []
      [("k1"), ("k2"), ("k3"), ("k4")] sampleAnalysis true).1
